import Mathlib

set_option maxRecDepth 40000

/-!
Shallow embedding of the `dhcpserver` crate (`src/dhcpserver/src/{dhcp,repository,util,main}.rs`).

Conventions used throughout:
* A byte buffer (`Vec<u8>` / `&[u8]`) is a `List Nat` of byte values.
* An `Ipv4Addr` is its `u32` value, a `Nat`; `ipv4FromOctets`/`octets` convert between the
  numeric value and the 4-byte big-endian representation, mirroring `Ipv4Addr::new` /
  `Ipv4Addr::octets`.
* A `MacAddr` is its first-6-bytes list (`MacAddr::new(v[0],..,v[5])`).
* A Rust operation that can panic (out-of-bounds index, slice with a bad range,
  `copy_from_slice` with mismatched lengths, `Option::unwrap` on `None`) is modelled as an
  `Option`-valued function where `none` means "panicked".
* Side effects that leave the process (SQL engine, sockets, the ICMP conflict probe) are
  modelled by explicit state (a `List LeaseEntry` for the `lease_entries` table) and by
  boolean oracles (`probe`, `inNet`) passed as parameters.
-/

namespace DhcpSrv

/-- `buf[i]`, the panicking Rust read, as an optional read. -/
def byteRead (buf : List Nat) (i : Nat) : Option Nat := buf[i]?

/-- Total byte read used for fixed-field accessors; every packet held by the server went
through `DhcpPacket::new`, whose length check makes these reads in-bounds, so the default
is never observed on packets the program manipulates. -/
def byteAt (buf : List Nat) (i : Nat) : Nat := buf.getD i 0

/-- `&buf[a..a+n]` for the fixed-field accessors (in-bounds for every constructed packet). -/
def readBytes (buf : List Nat) (a n : Nat) : List Nat := (buf.drop a).take n

/-- `buf[a..b].copy_from_slice(src)`: panics (`none`) unless `a ≤ b ≤ buf.len()` and
`src.len() = b - a`; otherwise replaces the designated range. -/
def writeRange (buf : List Nat) (a b : Nat) (src : List Nat) : Option (List Nat) :=
  if a ≤ b ∧ b ≤ buf.length ∧ src.length = b - a then
    some (buf.take a ++ src ++ buf.drop b)
  else
    none

/-- `Ipv4Addr::new(a, b, c, d)` as the numeric `u32` value. -/
def ipv4FromOctets (a b c d : Nat) : Nat := ((a * 256 + b) * 256 + c) * 256 + d

/-- `Ipv4Addr::octets()`. -/
def octets (ip : Nat) : List Nat :=
  [ip / 16777216 % 256, ip / 65536 % 256, ip / 256 % 256, ip % 256]

/-- `util::ipv4_addr_from`: `Some` iff the slice has exactly 4 bytes. -/
def ipv4_addr_from (buf : List Nat) : Option Nat :=
  if buf.length = 4 then
    some (ipv4FromOctets (buf.getD 0 0) (buf.getD 1 0) (buf.getD 2 0) (buf.getD 3 0))
  else
    none

/-- `util::big_endian_from`: big-endian bytes of a `u32`. -/
def big_endian_from (i : Nat) : List Nat := octets (i % 4294967296)

/-- The option-code enum `DhcpOptions` from `dhcp.rs`. -/
inductive DhcpOptions where
  | MessageType
  | IpAddressLeaseTime
  | ServerIdentifier
  | RequestedIpAddress
  | SubnetMask
  | Router
  | Dns
  | End
deriving DecidableEq

/-- `DhcpOptions::code`. -/
def DhcpOptions.code : DhcpOptions → Nat
  | .MessageType => 53
  | .IpAddressLeaseTime => 51
  | .ServerIdentifier => 54
  | .RequestedIpAddress => 50
  | .SubnetMask => 1
  | .Router => 3
  | .Dns => 6
  | .End => 255

/-- `DhcpOptions::len`, the declared value length written as the TLV length byte. -/
def DhcpOptions.len : DhcpOptions → Nat
  | .MessageType => 1
  | .IpAddressLeaseTime => 4
  | .ServerIdentifier => 4
  | .RequestedIpAddress => 4
  | .SubnetMask => 4
  | .Router => 4
  | .Dns => 4
  | .End => 0

/-- `MAGIC_COOKIE`. -/
def magicCookie : List Nat := [99, 130, 83, 99]

namespace DhcpPacket

/-- `DhcpPacket::new`: the length guard `buf.len() > PACKET_MINIMUM_SIZE` with
`PACKET_MINIMUM_SIZE = 237`. -/
def new (buf : List Nat) : Option (List Nat) :=
  if buf.length > 237 then some buf else none

/-- `DhcpPacket::op` (byte at offset `OP = 0`). -/
def op (buf : List Nat) : Nat := byteAt buf 0

/-- `DhcpPacket::xid` (`buf[XID..SECS]` = bytes 4..8). -/
def xid (buf : List Nat) : List Nat := readBytes buf 4 4

/-- `DhcpPacket::flags` (`buf[FLAGS..CIADDR]` = bytes 10..12). -/
def flags (buf : List Nat) : List Nat := readBytes buf 10 2

/-- `DhcpPacket::ciaddr` (`Ipv4Addr::new` over bytes 12..16). -/
def ciaddr (buf : List Nat) : Nat :=
  ipv4FromOctets (byteAt buf 12) (byteAt buf 13) (byteAt buf 14) (byteAt buf 15)

/-- `DhcpPacket::giaddr` (`Ipv4Addr::new` over bytes 24..28). -/
def giaddr (buf : List Nat) : Nat :=
  ipv4FromOctets (byteAt buf 24) (byteAt buf 25) (byteAt buf 26) (byteAt buf 27)

/-- `DhcpPacket::chaddr` (`MacAddr::new` over the first 6 bytes of `buf[CHADDR..SNAME]`). -/
def chaddr (buf : List Nat) : List Nat := readBytes buf 28 6

/-- `DhcpPacket::options` (`&buf[OPTIONS..]` with `OPTIONS = 236`). -/
def optionsArea (buf : List Nat) : List Nat := buf.drop 236

/-- The loop body of `DhcpPacket::option`, with explicit fuel. The result is
`none` on a panic (out-of-bounds index or slice), `some none` for "option not found"
(`End` reached), `some (some v)` for a found value. In the source the loop index strictly
increases on every iteration and every iteration first reads `options[index]`, so with
`fuel > options.len()` the fuel can never be exhausted: exhaustion is unreachable at the
call below. The non-matching skip is the source's `index += buf_idx + len` with
`buf_idx = index + 2`. -/
def optionScan (options : List Nat) (code : Nat) : Nat → Nat → Option (Option (List Nat))
  | _, 0 => none
  | index, fuel + 1 =>
    match options[index]? with
    | none => none
    | some b =>
      if b = 255 then some none
      else if b = code then
        match options[index + 1]? with
        | none => none
        | some len =>
          if index + 2 + len ≤ options.length then
            some (some ((options.drop (index + 2)).take len))
          else none
      else if b = 0 then optionScan options code (index + 1) fuel
      else
        match options[index + 1]? with
        | none => none
        | some len => optionScan options code (index + (index + 2 + len)) fuel

/-- `DhcpPacket::option`: scan starts at `MAGIC_COOKIE.len() = 4` within the options area. -/
def dhcpOption (buf : List Nat) (code : Nat) : Option (Option (List Nat)) :=
  optionScan (optionsArea buf) code 4 ((optionsArea buf).length + 1)

/-- `DhcpPacket::set_op`. -/
def set_op (buf : List Nat) (v : Nat) : Option (List Nat) := writeRange buf 0 1 [v]

/-- `DhcpPacket::set_htype`. -/
def set_htype (buf : List Nat) (v : Nat) : Option (List Nat) := writeRange buf 1 2 [v]

/-- `DhcpPacket::set_hlen`. -/
def set_hlen (buf : List Nat) (v : Nat) : Option (List Nat) := writeRange buf 2 3 [v]

/-- `DhcpPacket::set_xid` (`buf[XID..SECS].copy_from_slice(xid)`). -/
def set_xid (buf : List Nat) (v : List Nat) : Option (List Nat) := writeRange buf 4 8 v

/-- `DhcpPacket::set_flags`. -/
def set_flags (buf : List Nat) (v : List Nat) : Option (List Nat) := writeRange buf 10 12 v

/-- `DhcpPacket::set_ciaddr`. -/
def set_ciaddr (buf : List Nat) (ip : Nat) : Option (List Nat) :=
  writeRange buf 12 16 (octets ip)

/-- `DhcpPacket::set_yiaddr`. -/
def set_yiaddr (buf : List Nat) (ip : Nat) : Option (List Nat) :=
  writeRange buf 16 20 (octets ip)

/-- `DhcpPacket::set_giaddr`. -/
def set_giaddr (buf : List Nat) (ip : Nat) : Option (List Nat) :=
  writeRange buf 24 28 (octets ip)

/-- `DhcpPacket::set_chaddr`: the source writes
`self.buf[CHADDR..mac_addr.len()].copy_from_slice(&mac_addr)`, i.e. the slice range is
`28 .. mac_addr.len()` — the end bound is the 6-element array's length, not
`CHADDR + mac_addr.len()`. -/
def set_chaddr (buf : List Nat) (mac : List Nat) : Option (List Nat) :=
  writeRange buf 28 mac.length mac

/-- `DhcpPacket::set_magic_cookie`: writes the cookie at the cursor and advances it by 4. -/
def set_magic_cookie (buf : List Nat) (cursor : Nat) : Option (List Nat × Nat) :=
  (writeRange buf cursor (cursor + 4) magicCookie).map (fun b => (b, cursor + 4))

/-- `DhcpPacket::set_option`: writes the code byte; `End` returns with the cursor
unchanged; otherwise advances past the code byte, writes the declared length byte,
advances past it, copies the value bytes if present, then advances the cursor by one
final byte (the source's trailing `*cursor += 1`, independent of the value length). -/
def setOption (buf : List Nat) (opt : DhcpOptions) (data : Option (List Nat))
    (cursor : Nat) : Option (List Nat × Nat) := do
  let buf ← writeRange buf cursor (cursor + 1) [opt.code]
  if opt.code = DhcpOptions.End.code then
    return (buf, cursor)
  else
    let cursor := cursor + 1
    let buf ← writeRange buf cursor (cursor + 1) [opt.len]
    let cursor := cursor + 1
    let buf ←
      match data with
      | some d => writeRange buf cursor (cursor + d.length) d
      | none => some buf
    return (buf, cursor + 1)

end DhcpPacket

/-- One row of the `lease_entries` table (columns `mac_addr`, `ip_addr`, `deleted`). -/
structure LeaseEntry where
  macAddr : List Nat
  ipAddr : Nat
  deleted : Bool
deriving DecidableEq

/-- `repository::find_all_addrs`: `SELECT ip_addr FROM lease_entries WHERE deleted = ?`. -/
def find_all_addrs (db : List LeaseEntry) (deleted : Bool) : List Nat :=
  (db.filter (fun e => e.deleted = deleted)).map (fun e => e.ipAddr)

/-- `repository::find_addr`: `SELECT ip_addr FROM lease_entries WHERE mac_addr = ?1` —
note the query has no filter on the `deleted` column. -/
def find_addr (db : List LeaseEntry) (mac : List Nat) : Option Nat :=
  ((db.filter (fun e => e.macAddr = mac)).head?).map (fun e => e.ipAddr)

/-- `repository::destroy`: `UPDATE lease_entries SET deleted = 1 WHERE mac_addr = ?2`. -/
def destroy (db : List LeaseEntry) (mac : List Nat) : List LeaseEntry :=
  db.map (fun e => if e.macAddr = mac then { e with deleted := true } else e)

/-- The immutable configuration fields of `DhcpServer` used by the handlers. -/
structure DhcpServerConfig where
  networkAddr : Nat
  maskBits : Nat
  svrAddr : Nat
  defaultGateway : Nat
  subnetMask : Nat
  dnsSvr : Nat
  leaseTime : List Nat

/-- `Ipv4Network::broadcast()` of the canonical network `networkAddr/maskBits`. -/
def broadcastAddr (networkAddr maskBits : Nat) : Nat :=
  networkAddr + 2 ^ (32 - maskBits) - 1

/-- `Ipv4Network::contains(ip)` for the canonical network `networkAddr/maskBits`. -/
def networkContains (networkAddr maskBits ip : Nat) : Bool :=
  networkAddr ≤ ip && ip ≤ broadcastAddr networkAddr maskBits

/-- The `used_ip_addrs` vector of `init_addr_pool`: the non-deleted leases followed by
the five pushed reserved addresses, in source order. -/
def usedAddrs (db : List LeaseEntry) (networkAddr maskBits gw svr dns : Nat) : List Nat :=
  find_all_addrs db false ++
    [networkAddr, gw, svr, dns, broadcastAddr networkAddr maskBits]

/-- `DhcpServer::init_addr_pool`: every address of the subnet (the `Ipv4Network`
iterator, ascending from the network address), minus `used_ip_addrs`, then reversed
into descending order. -/
def init_addr_pool (db : List LeaseEntry) (networkAddr maskBits gw svr dns : Nat) :
    List Nat :=
  (((List.range (2 ^ (32 - maskBits))).map (fun i => networkAddr + i)).filter
    (fun a => ! (usedAddrs db networkAddr maskBits gw svr dns).contains a)).reverse

/-- `DhcpServer::find_available_ip_addr`: `Vec::pop` on the pool. -/
def find_available_ip_addr (pool : List Nat) : Option Nat × List Nat :=
  (pool.getLast?, pool.dropLast)

/-- `DhcpServer::find_ip_addr`: linear scan, `Vec::remove` of the first occurrence. -/
def find_ip_addr (pool : List Nat) (ip : Nat) : Option Nat × List Nat :=
  if pool.contains ip then (some ip, pool.erase ip) else (none, pool)

/-- `DhcpServer::release_ip_addr`, effects on the store and the pool: soft-delete the
lease for the sender's hardware address, then `Vec::insert(0, ciaddr)` of the message's
client-IP field. -/
def release_ip_addr (db : List LeaseEntry) (pool : List Nat) (recv : List Nat) :
    List LeaseEntry × List Nat :=
  (destroy db (DhcpPacket.chaddr recv), DhcpPacket.ciaddr recv :: pool)

/-- `DhcpPacket::requested_ip_addr`: `option(RequestedIpAddress)?` then
`util::ipv4_addr_from`. Outer `none` is a panic inside `option`; `some none` is
"absent or not 4 bytes". -/
def requested_ip_addr (recv : List Nat) : Option (Option Nat) :=
  match DhcpPacket.dhcpOption recv DhcpOptions.RequestedIpAddress.code with
  | none => none
  | some none => some none
  | some (some v) => some (ipv4_addr_from v)

/-- The `while let Some(ip_addr) = self.find_available_ip_addr()` loop of
`choose_leased_ip_addr`, with fuel; each iteration pops one address, so
`fuel = pool.length` (used by `tier3Loop`) can never be exhausted early. -/
def tier3Go (probe : Nat → Bool) : Nat → List Nat → Option Nat × List Nat
  | 0, pool => (none, pool)
  | fuel + 1, pool =>
    match (find_available_ip_addr pool).1 with
    | none => (none, pool)
    | some ip =>
      if probe ip then (some ip, (find_available_ip_addr pool).2)
      else tier3Go probe fuel (find_available_ip_addr pool).2

/-- The pool-pop tier of `choose_leased_ip_addr`; result `none` models the
`Err("There are no available IP addresses")` return. -/
def tier3Loop (pool : List Nat) (probe : Nat → Bool) : Option Nat × List Nat :=
  tier3Go probe pool.length pool

/-- Tiers 2–3 of `choose_leased_ip_addr` (requested-address option, then pool pops).
Outer `none` models a panic inside `option()`. -/
def chooseTier2 (pool : List Nat) (recv : List Nat) (probe : Nat → Bool) :
    Option (Option Nat × List Nat) :=
  match requested_ip_addr recv with
  | none => none
  | some none => some (tier3Loop pool probe)
  | some (some req) =>
    match find_ip_addr pool req with
    | (some ip, pool2) =>
      if probe ip then some (some ip, pool2) else some (tier3Loop pool2 probe)
    | (none, pool2) => some (tier3Loop pool2 probe)

/-- `DhcpServer::choose_leased_ip_addr` with the DB passed explicitly, the network
containment test `inNet` (`self.network_addr.contains`) and the conflict probe
`util::is_ip_addr_available(_).is_ok()` as oracles. The result pairs the chosen address
(`none` = the "no available IP addresses" error) with the pool after the call. -/
def choose_leased_ip_addr (db : List LeaseEntry) (pool : List Nat) (recv : List Nat)
    (inNet : Nat → Bool) (probe : Nat → Bool) : Option (Option Nat × List Nat) :=
  match find_addr db (DhcpPacket.chaddr recv) with
  | some used =>
    if inNet used && probe used then some (some used, pool)
    else chooseTier2 pool recv probe
  | none => chooseTier2 pool recv probe

/-- `make_dhcp_packet`, first half of the fixed-field writes (the fresh zero-filled
400-byte buffer through `set_xid`, in source order). -/
def makeFixed1 (recv : List Nat) : Option (List Nat) := do
  let buf ← DhcpPacket.new (List.replicate 400 0)
  let buf ← DhcpPacket.set_op buf 2
  let buf ← DhcpPacket.set_htype buf 1
  let buf ← DhcpPacket.set_hlen buf 6
  DhcpPacket.set_xid buf (DhcpPacket.xid recv)

/-- The conditional `set_ciaddr` of `make_dhcp_packet`: only an ACK reply
(`message_type == MessageType::DHCPACK`, value 5) copies the request's ciaddr. -/
def setCiaddrIfAck (recv : List Nat) (messageType : Nat) (buf : List Nat) :
    Option (List Nat) :=
  if messageType = 5 then DhcpPacket.set_ciaddr buf (DhcpPacket.ciaddr recv)
  else some buf

/-- `make_dhcp_packet`, second half of the fixed-field writes (the conditional
`set_ciaddr` for ACK replies through `set_chaddr`, in source order). -/
def makeFixed2 (recv : List Nat) (messageType ipAddrToLease : Nat) (buf : List Nat) :
    Option (List Nat) := do
  let buf ← setCiaddrIfAck recv messageType buf
  let buf ← DhcpPacket.set_yiaddr buf ipAddrToLease
  let buf ← DhcpPacket.set_flags buf (DhcpPacket.flags recv)
  let buf ← DhcpPacket.set_giaddr buf (DhcpPacket.giaddr recv)
  DhcpPacket.set_chaddr buf (DhcpPacket.chaddr recv)

/-- `make_dhcp_packet`, cookie and first two option writes (cursor starts at
`OPTIONS = 236`). -/
def makeOpts1 (cfg : DhcpServerConfig) (messageType : Nat) (buf : List Nat) :
    Option (List Nat × Nat) := do
  let s ← DhcpPacket.set_magic_cookie buf 236
  let s ← DhcpPacket.setOption s.1 DhcpOptions.MessageType (some [messageType]) s.2
  DhcpPacket.setOption s.1 DhcpOptions.IpAddressLeaseTime (some cfg.leaseTime) s.2

/-- `make_dhcp_packet`, middle option writes. -/
def makeOpts2 (cfg : DhcpServerConfig) (s : List Nat × Nat) : Option (List Nat × Nat) := do
  let s ← DhcpPacket.setOption s.1 DhcpOptions.ServerIdentifier (some (octets cfg.svrAddr)) s.2
  let s ← DhcpPacket.setOption s.1 DhcpOptions.SubnetMask (some (octets cfg.subnetMask)) s.2
  DhcpPacket.setOption s.1 DhcpOptions.Router (some (octets cfg.defaultGateway)) s.2

/-- `make_dhcp_packet`, last option writes (DNS, then End). -/
def makeOpts3 (cfg : DhcpServerConfig) (s : List Nat × Nat) : Option (List Nat × Nat) := do
  let s ← DhcpPacket.setOption s.1 DhcpOptions.Dns (some (octets cfg.dnsSvr)) s.2
  DhcpPacket.setOption s.1 DhcpOptions.End none s.2

/-- `DhcpServer::make_dhcp_packet`: zero-filled 400-byte buffer, fixed fields, magic
cookie, then the option chain, exactly in source order (staged through the helpers
above). `none` models a panic anywhere in the chain. -/
def make_dhcp_packet (cfg : DhcpServerConfig) (recv : List Nat) (messageType : Nat)
    (ipAddrToLease : Nat) : Option (List Nat) := do
  let buf ← makeFixed1 recv
  let buf ← makeFixed2 recv messageType ipAddrToLease buf
  let s ← makeOpts1 cfg messageType buf
  let s ← makeOpts2 cfg s
  let s ← makeOpts3 cfg s
  return s.1

/-- Outcome of handling one inbound message, for the control paths the claims are
about. Dispatch into an effectful handler (DB / socket work) is recorded as a
`dispatched…` constructor rather than simulated. -/
inductive Handling where
  | errReturn
  | panicked
  | ignored
  | dispatchedDiscover
  | dispatchedReallocate
  | dispatchedRelease
  | proceedsToLease
deriving DecidableEq

/-- `DhcpServer::allocate_ip_addr` up to the point where it commits to leasing:
context-wrapped failures are `errReturn`, the foreign-server case is `ignored`
(`Ok(())`), and `.unwrap()` on a missing requested-IP option is `panicked`. -/
def allocate_ip_addr (svrAddr : Nat) (svrId : List Nat) (recv : List Nat) : Handling :=
  match ipv4_addr_from svrId with
  | none => Handling.errReturn
  | some svrIp =>
    if svrIp ≠ svrAddr then Handling.ignored
    else
      match DhcpPacket.dhcpOption recv DhcpOptions.RequestedIpAddress.code with
      | none => Handling.panicked
      | some none => Handling.panicked
      | some (some offered) =>
        match ipv4_addr_from offered with
        | none => Handling.errReturn
        | some _ => Handling.proceedsToLease

/-- `main::handle_dhcp`: extract the message-type option (`context(...)?` on absence),
read its first byte (`message[0]`, a panic when empty), and dispatch. -/
def handle_dhcp (svrAddr : Nat) (recv : List Nat) : Handling :=
  match DhcpPacket.dhcpOption recv DhcpOptions.MessageType.code with
  | none => Handling.panicked
  | some none => Handling.errReturn
  | some (some message) =>
    match message with
    | [] => Handling.panicked
    | m0 :: _ =>
      if m0 = 1 then Handling.dispatchedDiscover
      else if m0 = 3 then
        match DhcpPacket.dhcpOption recv DhcpOptions.ServerIdentifier.code with
        | none => Handling.panicked
        | some (some svrId) => allocate_ip_addr svrAddr svrId recv
        | some none => Handling.dispatchedReallocate
      else if m0 = 7 then Handling.dispatchedRelease
      else Handling.errReturn

/-- The spec's pool invariant relative to a store state: no duplicates, every member
strictly inside the subnet, no member leased to an active (non-deleted) client. -/
def poolInvariant (networkAddr maskBits : Nat) (db : List LeaseEntry)
    (pool : List Nat) : Prop :=
  pool.Nodup ∧ ∀ a ∈ pool,
    networkAddr < a ∧ a < broadcastAddr networkAddr maskBits ∧
    a ∉ find_all_addrs db false

instance (networkAddr maskBits : Nat) (db : List LeaseEntry) (pool : List Nat) :
    Decidable (poolInvariant networkAddr maskBits db pool) := by
  unfold poolInvariant
  infer_instance

/-- Successive `find_available_ip_addr` results, collected until the first `none`;
fuel version, each iteration shortens the pool by one. -/
def popAllGo : Nat → List Nat → List Nat
  | 0, _ => []
  | fuel + 1, pool =>
    match (find_available_ip_addr pool).1 with
    | none => []
    | some a => a :: popAllGo fuel (find_available_ip_addr pool).2

/-- All addresses returned by successive `find_available_ip_addr` calls on `pool`. -/
def popAll (pool : List Nat) : List Nat := popAllGo pool.length pool

/-- The pool left after `k` successive `find_available_ip_addr` calls. -/
def popN : Nat → List Nat → List Nat
  | 0, pool => pool
  | k + 1, pool => popN k (find_available_ip_addr pool).2

/-- A sample server configuration: subnet 10.0.0.0/24, gateway 10.0.0.1,
server 10.0.0.254, DNS 10.0.0.53, lease time 3600 s. -/
def exampleConfig : DhcpServerConfig :=
  { networkAddr := 167772160, maskBits := 24, svrAddr := 167772414,
    defaultGateway := 167772161, subnetMask := 4294967040, dnsSvr := 167772213,
    leaseTime := [0, 0, 14, 16] }

/-- A 244-byte inbound request: opcode 1, xid `12345678`, broadcast flag set,
ciaddr 10.0.0.2, giaddr 10.0.0.9, chaddr `aa:bb:cc:dd:ee:01`, options
`cookie, message-type(1), End`. -/
def exampleRequest : List Nat :=
  [1, 0, 0, 0] ++ [18, 52, 86, 120] ++ [0, 0] ++ [128, 0] ++ [10, 0, 0, 2] ++
  List.replicate 8 0 ++ [10, 0, 0, 9] ++ [170, 187, 204, 221, 238, 1] ++
  List.replicate 202 0 ++ magicCookie ++ [53, 1, 1] ++ [255]

/-- A 241-byte inbound packet whose options area is just `cookie, End`: it carries
no message-type option. -/
def requestMissingMessageType : List Nat :=
  List.replicate 236 0 ++ magicCookie ++ [255]

/-- A 265-byte REQUEST whose options, laid out to be visible to the source's scanning
loop, are message-type(3) at offset 4 of the options area and
server-identifier(10.0.0.254) at offset 11, with End where the scan for
requested-IP(50) terminates; it carries no requested-IP option. -/
def requestMissingRequestedIp : List Nat :=
  [1] ++ List.replicate 235 0 ++ magicCookie ++
  [53, 1, 3, 0, 0, 0, 0, 54, 4, 10, 0, 0, 254] ++ List.replicate 11 0 ++ [255]

/-- A 251-byte packet whose options area after the cookie is the well-formed,
End-terminated TLV sequence `[1, 4, 10, 20, 30, 40], [53, 1, 5], End` — option 53
is present with value `[5]` before the terminator. -/
def wellFormedOptionsBuf : List Nat :=
  List.replicate 236 0 ++ magicCookie ++ [1, 4, 10, 20, 30, 40, 53, 1, 5, 255, 255]

/-- The mac address `aa:bb:cc:dd:ee:01`. -/
def exampleMac : List Nat := [170, 187, 204, 221, 238, 1]

/-- A 238-byte RELEASE-style packet whose ciaddr field (bytes 12..16) holds the
address 4 (all other bytes zero). -/
def releaseCiaddr4Buf : List Nat :=
  List.replicate 12 0 ++ [0, 0, 0, 4] ++ List.replicate 222 0

/-- A 245-byte packet carrying a requested-IP(50) option whose value is only
3 bytes long (`[1, 2, 3]`). -/
def requestShortRequestedIp : List Nat :=
  List.replicate 236 0 ++ magicCookie ++ [50, 3, 1, 2, 3, 255]

/-- Claim C1: building a reply from a request and parsing it back yields the written
values. This fails at the first step: on the sample request (an ACK build for
10.0.0.2) `make_dhcp_packet` panics — `set_chaddr` slices `buf[28..6]` — so no reply
buffer is ever produced to parse back. -/
theorem C1_roundtrip_builder_panics :
    make_dhcp_packet exampleConfig exampleRequest 5 167772162 = none := by
  decide

/-- Claim C2: a non-End option write advances the cursor by `2 + L`. On the zeroed
400-byte reply buffer at cursor 240, writing the 4-byte lease-time option advances the
cursor to 243 (always `+3`), not to `246 = 240 + 2 + 4`; the End half of the claim
(code byte only, cursor unchanged) does hold. -/
theorem C2_setOption_cursor_advances_three :
    (DhcpPacket.setOption (List.replicate 400 0) DhcpOptions.IpAddressLeaseTime
      (some [0, 0, 14, 16]) 240).map (fun s => s.2) = some 243 ∧
    243 ≠ 240 + 2 + 4 ∧
    (DhcpPacket.setOption (List.replicate 400 0) DhcpOptions.End none 240).map
      (fun s => s.2) = some 240 := by
  refine ⟨by decide, by decide, by decide⟩

/-- Claim C3: on a well-formed End-terminated options area, `option(code)` returns the
value of the first matching TLV. On `wellFormedOptionsBuf` the TLV `[53, 1, 5]` is
present (at offset 246 of the buffer) before the End, yet `option(53)` returns
"not found": the skip branch advances `index` by `index + 2 + len` instead of
`2 + len` and jumps over the match onto the trailing byte. -/
theorem C3_option_scan_misses_present_option :
    DhcpPacket.dhcpOption wellFormedOptionsBuf 53 = some none ∧
    readBytes wellFormedOptionsBuf 246 3 = [53, 1, 5] := by
  refine ⟨by decide, by decide⟩

/-- Claim C4 counterexample: a buffer of exactly 237 bytes — at the claimed minimum —
is rejected by `DhcpPacket::new`, though the claim says construction succeeds for
every length ≥ 237. -/
theorem C4_counterexample_exact_minimum_rejected :
    DhcpPacket.new (List.replicate 237 0) = none ∧
    (List.replicate 237 0).length = 237 := by
  refine ⟨by decide, by decide⟩

/-- Claim C4 as amended: `DhcpPacket::new` returns `Some` exactly for buffers strictly
longer than 237 bytes (length ≥ 238) and `None` exactly for buffers of length ≤ 237. -/
theorem C4_new_succeeds_iff_length_gt_237 (buf : List Nat) :
    (DhcpPacket.new buf = some buf ↔ 238 ≤ buf.length) ∧
    (DhcpPacket.new buf = none ↔ buf.length ≤ 237) := by
  unfold DhcpPacket.new
  by_cases h : buf.length > 237 <;> simp [h] <;> omega

theorem C4_new_succeeds_iff_length_gt_237_witness :
    (DhcpPacket.new (List.replicate 240 0) = some (List.replicate 240 0) ↔
      238 ≤ (List.replicate 240 0).length) ∧
    (DhcpPacket.new (List.replicate 240 0) = none ↔
      (List.replicate 240 0).length ≤ 237) :=
  C4_new_succeeds_iff_length_gt_237 (List.replicate 240 0)

/-- Claim C6: `find_addr` only returns non-deleted leases. The query has no filter on
the `deleted` column: after `destroy` soft-deletes the only record for the mac, the
lookup still returns that record's address instead of `None`. -/
theorem C6_find_addr_returns_deleted_lease :
    destroy [⟨exampleMac, 167772162, false⟩] exampleMac =
      [⟨exampleMac, 167772162, true⟩] ∧
    find_addr [⟨exampleMac, 167772162, true⟩] exampleMac = some 167772162 := by
  refine ⟨by decide, by decide⟩

/-- Claim C9: a message missing a required option makes handling return an error and
never panic. The missing-message-type half holds (`errReturn`), but a REQUEST whose
server-identifier matches this server (10.0.0.254) and which lacks the requested-IP
option hits `.unwrap()` on `None` and panics. -/
theorem C9_missing_requested_ip_panics :
    handle_dhcp 167772414 requestMissingMessageType = Handling.errReturn ∧
    handle_dhcp 167772414 requestMissingRequestedIp = Handling.panicked ∧
    DhcpPacket.dhcpOption requestMissingRequestedIp
      DhcpOptions.ServerIdentifier.code = some (some [10, 0, 0, 254]) ∧
    DhcpPacket.dhcpOption requestMissingRequestedIp
      DhcpOptions.RequestedIpAddress.code = some none := by
  refine ⟨by decide, by decide, by decide, by decide⟩

theorem opt_bind_eq_none {α β : Type} (x : Option α) (f : α → Option β)
    (h : ∀ a, f a = none) : x.bind f = none := by
  cases x <;> simp [h]

theorem set_chaddr_always_panics (buf mac : List Nat) (h : mac.length ≤ 6) :
    DhcpPacket.set_chaddr buf mac = none := by
  unfold DhcpPacket.set_chaddr writeRange
  rw [if_neg]
  intro hc
  omega

theorem chaddr_length_le (recv : List Nat) : (DhcpPacket.chaddr recv).length ≤ 6 := by
  simp [DhcpPacket.chaddr, readBytes]

theorem makeFixed2_eq_none (recv : List Nat) (mt ip : Nat) (buf : List Nat) :
    makeFixed2 recv mt ip buf = none := by
  unfold makeFixed2
  apply opt_bind_eq_none
  intro b1
  apply opt_bind_eq_none
  intro b2
  apply opt_bind_eq_none
  intro b3
  apply opt_bind_eq_none
  intro b4
  exact set_chaddr_always_panics b4 _ (chaddr_length_le recv)

/-- Claim C5: `make_dhcp_packet` completes without error and copies xid, flags, giaddr
and chaddr from the request. It never completes: `set_chaddr` computes the slice range
`buf[CHADDR..mac_addr.len()]` = `buf[28..6]`, whose start exceeds its end, so every
reply build panics there. -/
theorem C5_make_dhcp_packet_always_panics (cfg : DhcpServerConfig) (recv : List Nat)
    (messageType ipAddrToLease : Nat) :
    make_dhcp_packet cfg recv messageType ipAddrToLease = none := by
  unfold make_dhcp_packet
  apply opt_bind_eq_none
  intro b
  rw [makeFixed2_eq_none]
  rfl

theorem C5_make_dhcp_packet_always_panics_witness :
    make_dhcp_packet exampleConfig exampleRequest 2 167772163 = none :=
  C5_make_dhcp_packet_always_panics exampleConfig exampleRequest 2 167772163

theorem init_addr_pool_satisfies_invariant (db : List LeaseEntry)
    (n mask gw svr dns : Nat) :
    poolInvariant n mask db (init_addr_pool db n mask gw svr dns) := by
  constructor
  · rw [init_addr_pool, List.nodup_reverse]
    exact ((List.nodup_range _).map (fun a b hab => by omega)).filter _
  · intro a ha
    rw [init_addr_pool, List.mem_reverse, List.mem_filter] at ha
    obtain ⟨hmem, hp⟩ := ha
    rw [List.mem_map] at hmem
    obtain ⟨i, hi, rfl⟩ := hmem
    rw [List.mem_range] at hi
    have hnot : (n + i) ∉ usedAddrs db n mask gw svr dns := by simpa using hp
    rw [usedAddrs] at hnot
    simp only [List.mem_append, List.mem_cons, List.not_mem_nil] at hnot
    push_neg at hnot
    obtain ⟨hact, hn, _, _, _, hbc, _⟩ := hnot
    have hpow : 1 ≤ 2 ^ (32 - mask) := Nat.one_le_two_pow
    refine ⟨by omega, ?_, hact⟩
    unfold broadcastAddr at hbc ⊢
    omega

theorem pool_sublist_preserves_invariant (n mask : Nat) (db : List LeaseEntry)
    (pool pool2 : List Nat) (hs : List.Sublist pool2 pool)
    (h : poolInvariant n mask db pool) : poolInvariant n mask db pool2 := by
  obtain ⟨hnd, hmem⟩ := h
  exact ⟨hnd.sublist hs, fun a ha => hmem a (hs.subset ha)⟩

/-- Claim C7 as amended: the pool invariant (no duplicates, every member strictly
inside the subnet, no member actively leased) holds for the startup-seeded pool and is
preserved by `find_available_ip_addr` (pop) and by `find_ip_addr` (targeted remove);
the RELEASE-path reinsertion, excluded here, does not preserve it (see the
counterexample). -/
theorem C7_pool_invariant_seed_and_take_ops :
    (∀ (db : List LeaseEntry) (n mask gw svr dns : Nat),
      poolInvariant n mask db (init_addr_pool db n mask gw svr dns)) ∧
    (∀ (n mask : Nat) (db : List LeaseEntry) (pool : List Nat),
      poolInvariant n mask db pool →
      poolInvariant n mask db (find_available_ip_addr pool).2) ∧
    (∀ (n mask : Nat) (db : List LeaseEntry) (pool : List Nat) (ip : Nat),
      poolInvariant n mask db pool →
      poolInvariant n mask db (find_ip_addr pool ip).2) := by
  refine ⟨init_addr_pool_satisfies_invariant, ?_, ?_⟩
  · intro n mask db pool h
    exact pool_sublist_preserves_invariant n mask db pool _
      (List.dropLast_sublist pool) h
  · intro n mask db pool ip h
    by_cases hc : ip ∈ pool
    · have h2 : (find_ip_addr pool ip).2 = pool.erase ip := by simp [find_ip_addr, hc]
      rw [h2]
      exact pool_sublist_preserves_invariant n mask db pool _
        (List.erase_sublist ip pool) h
    · have h2 : (find_ip_addr pool ip).2 = pool := by simp [find_ip_addr, hc]
      rw [h2]
      exact h

theorem C7_pool_invariant_seed_and_take_ops_witness :
    poolInvariant 0 29 [] (init_addr_pool [] 0 29 1 2 3) ∧
    poolInvariant 0 29 [] (find_available_ip_addr [6, 5, 4]).2 ∧
    poolInvariant 0 29 [] (find_ip_addr [6, 5, 4] 5).2 :=
  ⟨C7_pool_invariant_seed_and_take_ops.1 [] 0 29 1 2 3,
   C7_pool_invariant_seed_and_take_ops.2.1 0 29 [] [6, 5, 4] (by decide),
   C7_pool_invariant_seed_and_take_ops.2.2 0 29 [] [6, 5, 4] 5 (by decide)⟩

/-- Claim C7 counterexample: starting from the startup-seeded pool of the /29 network
0 with gateway 1, server 2, DNS 3 (pool `[6, 5, 4]`, which satisfies the invariant),
handling a RELEASE whose ciaddr field is 4 re-inserts 4 at the front although 4 is
still a pool member, leaving the duplicate-containing pool `[4, 6, 5, 4]` — the
RELEASE-path reinsertion does not preserve the invariant. -/
theorem C7_counterexample_release_inserts_duplicate :
    init_addr_pool [] 0 29 1 2 3 = [6, 5, 4] ∧
    poolInvariant 0 29 [] [6, 5, 4] ∧
    (release_ip_addr [] [6, 5, 4] releaseCiaddr4Buf).2 = [4, 6, 5, 4] ∧
    ¬ poolInvariant 0 29 (release_ip_addr [] [6, 5, 4] releaseCiaddr4Buf).1
        (release_ip_addr [] [6, 5, 4] releaseCiaddr4Buf).2 := by
  refine ⟨by decide, by decide, by decide, by decide⟩

theorem popAllGo_eq_reverse (pool : List Nat) :
    ∀ k, pool.length ≤ k → popAllGo k pool = pool.reverse := by
  induction pool using List.reverseRecOn with
  | nil =>
    intro k hk
    cases k <;> rfl
  | append_singleton l a ih =>
    intro k hk
    cases k with
    | zero => simp at hk
    | succ m =>
      have h1 : (find_available_ip_addr (l ++ [a])).1 = some a := by
        simp [find_available_ip_addr]
      have h2 : (find_available_ip_addr (l ++ [a])).2 = l := by
        simp [find_available_ip_addr]
      rw [popAllGo, h1, h2, ih m (by simpa using Nat.succ_le_succ_iff.mp (by simpa using hk))]
      simp

theorem popN_eq_nil : ∀ (k : Nat) (pool : List Nat), pool.length ≤ k →
    popN k pool = [] := by
  intro k
  induction k with
  | zero =>
    intro pool h
    rw [List.length_eq_zero.mp (Nat.le_zero.mp h)]
    rfl
  | succ m ih =>
    intro pool h
    rw [popN]
    apply ih
    have := List.length_dropLast pool
    simp only [find_available_ip_addr]
    omega

/-- Claim C8: starting from the startup-seeded pool, successive `find_available_ip_addr`
(`take_next`) calls return strictly ascending addresses; after `pool.length` calls the
pool is empty and the next call returns `none`. -/
theorem C8_take_next_ascending_until_exhaustion (db : List LeaseEntry)
    (n mask gw svr dns : Nat) :
    List.Pairwise (· < ·) (popAll (init_addr_pool db n mask gw svr dns)) ∧
    popN (init_addr_pool db n mask gw svr dns).length
      (init_addr_pool db n mask gw svr dns) = [] ∧
    (find_available_ip_addr
      (popN (init_addr_pool db n mask gw svr dns).length
        (init_addr_pool db n mask gw svr dns))).1 = none := by
  have hempty := popN_eq_nil (init_addr_pool db n mask gw svr dns).length
    (init_addr_pool db n mask gw svr dns) (Nat.le_refl _)
  refine ⟨?_, hempty, by rw [hempty]; rfl⟩
  rw [popAll, popAllGo_eq_reverse _ _ (Nat.le_refl _), init_addr_pool,
    List.reverse_reverse]
  exact ((List.pairwise_lt_range _).map _ (fun a b hab => by omega)).filter _

theorem C8_take_next_ascending_until_exhaustion_witness :
    List.Pairwise (· < ·) (popAll (init_addr_pool [] 0 29 1 2 3)) ∧
    popN (init_addr_pool [] 0 29 1 2 3).length (init_addr_pool [] 0 29 1 2 3) = [] ∧
    (find_available_ip_addr
      (popN (init_addr_pool [] 0 29 1 2 3).length
        (init_addr_pool [] 0 29 1 2 3))).1 = none :=
  C8_take_next_ascending_until_exhaustion [] 0 29 1 2 3

/-- Claim C10: when the requested-IP option is present but its value is not exactly
4 bytes, `requested_ip_addr()` returns `None` (no panic, no error), and — when the
lease-store lookup of tier 1 also misses — `choose_leased_ip_addr` proceeds directly
to the pool-pop tier, with the pool untouched by the requested-address tier. -/
theorem C10_short_requested_ip_skips_to_pool_tier (recv v : List Nat)
    (db : List LeaseEntry) (pool : List Nat) (inNet probe : Nat → Bool)
    (h1 : DhcpPacket.dhcpOption recv DhcpOptions.RequestedIpAddress.code =
      some (some v))
    (h2 : v.length ≠ 4) :
    requested_ip_addr recv = some none ∧
    (find_addr db (DhcpPacket.chaddr recv) = none →
      choose_leased_ip_addr db pool recv inNet probe =
        some (tier3Loop pool probe)) := by
  have hreq : requested_ip_addr recv = some none := by
    unfold requested_ip_addr
    rw [h1]
    show some (ipv4_addr_from v) = some none
    unfold ipv4_addr_from
    rw [if_neg h2]
  refine ⟨hreq, fun h3 => ?_⟩
  unfold choose_leased_ip_addr
  rw [h3]
  show chooseTier2 pool recv probe = some (tier3Loop pool probe)
  unfold chooseTier2
  rw [hreq]

theorem C10_short_requested_ip_skips_to_pool_tier_witness :
    requested_ip_addr requestShortRequestedIp = some none ∧
    choose_leased_ip_addr [] [5] requestShortRequestedIp (fun _a => true)
      (fun _a => true) = some (tier3Loop [5] (fun _a => true)) := by
  have h := C10_short_requested_ip_skips_to_pool_tier requestShortRequestedIp
    [1, 2, 3] [] [5] (fun _a => true) (fun _a => true) (by decide) (by decide)
  exact ⟨h.1, h.2 (by decide)⟩

end DhcpSrv
